import Mathlib

/-
  Verification development for the Classwork Store frontend
  (repository Noop27/frontend-vuejs).

  The development shallowly embeds the client-side cart/inventory
  reconciliation logic and the order submission protocol:
    - src/src/components/LessonList.vue : getLessonId, fetchLessons,
      addToCart, placeOrder (plus an older variant of fetchLessons)
    - src/src/App.vue : handleRemoveItem, the template event bindings,
      and the embedded Checkout component (detailedCart, cartTotal,
      isFormValid, submitOrder).

  Conventions of the embedding:
    - JavaScript objects used as maps (the cart) become association
      lists in insertion order; object key assignment updates the
      first matching entry or appends, and delete removes the entry.
    - JavaScript numbers holding money become rationals; the
      two-decimal rounding performed by toFixed(2) followed by
      parseFloat becomes the function round2 below.
    - Network calls are factored out: each async operation takes the
      outcome of its fetch calls as an argument (FetchResult or
      Except) and returns the new component state together with the
      list of outward effects it performed (requests issued, events
      emitted, console lines written).  A fetch that resolves carries
      the HTTP ok flag and status; a fetch that rejects carries the
      transport error message.
    - showNotification writes the user-visible notification state;
      console.warn and console.error are recorded as effects and are
      not user-visible.
-/

/-- The _id field of a lesson record: either a bare string or the
legacy MongoDB extended JSON form with an $oid key. -/
inductive IdField where
  | str (s : String)
  | oid (s : String)
deriving DecidableEq, Repr

/-- A lesson record as fetched from the catalog API. -/
structure Lesson where
  _id : IdField
  topic : String
  location : String
  price : ℚ
  space : Int
deriving DecidableEq, Repr

/-- getLessonId from LessonList.vue: a bare string id is accepted only
when it has at least 10 characters; otherwise the code falls through to
the $oid check (which fails on a string, since a string has no $oid
property) and returns null.  A wrapped id is accepted when the $oid
string is truthy, that is nonempty.  null is modelled as none. -/
def getLessonId (lesson : Lesson) : Option String :=
  match lesson._id with
  | .str s => if 10 ≤ s.length then some s else none
  | .oid s => if s = "" then none else some s

/-- The raw key expression used elsewhere in the code:
l._id.$oid || l._id.  On a bare string the $oid access yields undefined
and the fallback returns the string itself; on a wrapped id it returns
the $oid string unless that string is empty, in which case the fallback
returns the wrapper object, which compares equal to no string key
(modelled as none). -/
def rawLessonKey (lesson : Lesson) : Option String :=
  match lesson._id with
  | .str s => some s
  | .oid s => if s = "" then none else some s

/-- The cart store: lesson id to reserved quantity, in insertion order. -/
abbrev Cart := List (String × Nat)

/-- Reading cart[k]: the first entry with key k, defaulting to 0 for a
missing key (undefined coerces to 0 in the arithmetic the code does). -/
def Cart.getq : Cart → String → Nat
  | [], _ => 0
  | p :: rest, k => if p.1 = k then p.2 else Cart.getq rest k

/-- Whether the cart holds an entry for key k. -/
def Cart.hasKey : Cart → String → Bool
  | [], _ => false
  | p :: rest, k => if p.1 = k then true else Cart.hasKey rest k

/-- Object assignment cart[k] = v: update the first entry with key k,
or append a new entry when the key is absent. -/
def Cart.setq : Cart → String → Nat → Cart
  | [], k, v => [(k, v)]
  | p :: rest, k, v => if p.1 = k then (k, v) :: rest else p :: Cart.setq rest k v

/-- delete cart[k]: remove the entry (entries) with key k. -/
def Cart.del : Cart → String → Cart
  | [], _ => []
  | p :: rest, k => if p.1 = k then Cart.del rest k else p :: Cart.del rest k

/-- The space-compensation step of handleRemoveItem: findIndex over the
lessons array with the raw key expression, then space += amount on the
first match; an unmatched id leaves the array unchanged. -/
def bumpSpaceFirst : List Lesson → String → Int → List Lesson
  | [], _, _ => []
  | l :: rest, lessonId, amount =>
    if rawLessonKey l = some lessonId then
      { l with space := l.space + amount } :: rest
    else
      l :: bumpSpaceFirst rest lessonId amount

/-- handleRemoveItem from App.vue, acting on the cart and the lessons
list.  Guard: cart[lessonId] > 0 (false for a missing key).  The cart
quantity becomes Math.max(0, q - quantityToRemove), Nat subtraction
here, and a zero result deletes the entry.  The first lesson whose raw
key matches gets space += quantityToRemove, the full requested amount. -/
def handleRemoveItem (cart : Cart) (lessons : List Lesson)
    (lessonId : String) (quantityToRemove : Nat) : Cart × List Lesson :=
  if 0 < Cart.getq cart lessonId then
    ((if Cart.getq cart lessonId - quantityToRemove = 0 then
        Cart.del cart lessonId
      else
        Cart.setq cart lessonId (Cart.getq cart lessonId - quantityToRemove)),
     bumpSpaceFirst lessons lessonId (quantityToRemove : Int))
  else
    (cart, lessons)

/-- A derived cart line of the Checkout component. -/
structure CartItem where
  id : String
  topic : String
  price : ℚ
  quantity : Nat
  subtotal : ℚ
deriving DecidableEq, Repr

/-- A line of the outbound order payload. -/
structure OrderLine where
  id : String
  topic : String
  quantity : Nat
  price : ℚ
deriving DecidableEq, Repr

/-- The outbound order payload. -/
structure OrderPayload where
  name : String
  phone : String
  lessons : List OrderLine
  total : ℚ
deriving DecidableEq, Repr

/-- The kind of a Checkout message: the type field, success or error. -/
inductive MsgKind where
  | success
  | error
deriving DecidableEq, Repr

/-- Outcome of one fetch call: resolved with an HTTP ok flag and status,
or rejected with a transport error message. -/
inductive FetchResult where
  | resolved (ok : Bool) (status : Nat)
  | rejected (msg : String)
deriving DecidableEq, Repr

/-- Outward effects an operation performs: requests issued, component
events emitted, console lines written. -/
inductive Effect where
  | getLessons (searchTerm : Option String) (minSpaces : Nat)
  | getLessonsSorted (sortField : String) (sortOrder : String)
  | postOrder (payload : OrderPayload)
  | putInventory (id : String) (quantity : Nat)
  | emitOrderPlaced
  | emitUpdateCart (cart : Cart)
  | emitUpdateLessons (lessons : List Lesson)
  | consoleWarn (msg : String)
  | consoleError (msg : String)
deriving DecidableEq, Repr

/-- JavaScript String.prototype.trim, modelled structurally: drop
whitespace characters from both ends. -/
def strTrim (s : String) : String :=
  String.mk (((s.data.dropWhile Char.isWhitespace).reverse.dropWhile
    Char.isWhitespace).reverse)

/-- State of the LessonList component. -/
structure ListState where
  lessons : List Lesson
  cart : Cart
  searchTerm : String
  minSpaces : Nat
  sortField : String
  sortOrder : String
  isLoading : Bool
  isPlacingOrder : Bool
  isCheckoutVisible : Bool
  customerName : String
  customerPhone : String
  notification : Option (String × Bool)
deriving DecidableEq, Repr

/-- fetchLessons from the current LessonList.vue: the search request
carries the trimmed search term (omitted when blank) and the minSpaces
filter.  On success the lessons list is replaced and re-emitted to the
parent; on failure the list is cleared to empty and the error goes to
the console only, the notification state is untouched. -/
def fetchLessons (s : ListState) (result : Except String (List Lesson)) :
    ListState × List Effect :=
  let term := strTrim s.searchTerm
  let req := Effect.getLessons (if term = "" then none else some term) s.minSpaces
  match result with
  | .ok data =>
      ({ s with lessons := data, isLoading := false },
       [req, .emitUpdateLessons data])
  | .error e =>
      ({ s with lessons := [], isLoading := false },
       [req, .consoleError ("Error fetching lessons: " ++ e)])

/-- fetchLessons from the older LessonList variant: the request carries
the sort parameters; the failure branch only logs to the console and
leaves the previously fetched lessons list in place. -/
def fetchLessonsOld (s : ListState) (result : Except String (List Lesson)) :
    ListState × List Effect :=
  let req := Effect.getLessonsSorted s.sortField s.sortOrder
  match result with
  | .ok data =>
      ({ s with lessons := data, isLoading := false },
       [req, .emitUpdateLessons data])
  | .error e =>
      ({ s with isLoading := false },
       [req, .consoleError ("Error fetching lessons: " ++ e)])

/-- addToCart from the current LessonList.vue, invoked on the lesson at
index i of the rendered list.  An invalid id (null or the string 0)
writes a user-visible failure notification and returns; a sold-out
lesson only writes a console warning and returns; otherwise the lesson
loses one space, the cart gains one unit, a success notification is
shown and the updated cart is emitted to the parent. -/
def addToCart (s : ListState) (i : Nat) : ListState × List Effect :=
  match s.lessons.get? i with
  | none => (s, [])
  | some lesson =>
    match getLessonId lesson with
    | none =>
        ({ s with notification := some ("Failed to add " ++ lesson.topic ++ ": Invalid ID.", false) },
         [.consoleError "Attempted to add a lesson without a valid ID"])
    | some lessonId =>
      if lessonId = "0" then
        ({ s with notification := some ("Failed to add " ++ lesson.topic ++ ": Invalid ID.", false) },
         [.consoleError "Attempted to add a lesson without a valid ID"])
      else if lesson.space ≤ 0 then
        (s, [.consoleWarn ("Cannot add " ++ lesson.topic ++ ", sold out.")])
      else
        let lessons1 := s.lessons.set i { lesson with space := lesson.space - 1 }
        let cart1 := Cart.setq s.cart lessonId (Cart.getq s.cart lessonId + 1)
        ({ s with lessons := lessons1, cart := cart1,
                  notification := some (lesson.topic ++ " added to cart!", true) },
         [.emitUpdateCart cart1])

/-- State of the embedded Checkout component: the cart and lessons
props plus the local form and message state. -/
structure CheckoutState where
  cart : Cart
  lessons : List Lesson
  customerName : String
  customerPhone : String
  isProcessing : Bool
  message : Option (String × MsgKind)
deriving DecidableEq, Repr

/-- detailedCart from Checkout: join each positive cart entry against
the lessons prop through the raw key expression; entries whose lesson
does not resolve are dropped from the derived view. -/
def detailedCart (cart : Cart) (lessons : List Lesson) : List CartItem :=
  cart.filterMap (fun p =>
    if 0 < p.2 then
      match lessons.find? (fun l => rawLessonKey l == some p.1) with
      | some lesson =>
          some ⟨p.1, lesson.topic, lesson.price, p.2, lesson.price * (p.2 : ℚ)⟩
      | none => none
    else none)

/-- The exact rational sum of the derived cart subtotals, before the
toFixed rounding. -/
def cartTotalRaw (cart : Cart) (lessons : List Lesson) : ℚ :=
  (detailedCart cart lessons).foldl (fun acc it => acc + it.subtotal) 0

/-- toFixed(2) followed by parseFloat: round half up to two decimal
places. -/
def round2 (q : ℚ) : ℚ := ((⌊q * 100 + 1 / 2⌋ : ℤ) : ℚ) / 100

/-- isFormValid from Checkout: trimmed name nonempty, trimmed phone
nonempty, derived cart nonempty. -/
def isFormValid (s : CheckoutState) : Bool :=
  decide (0 < (strTrim s.customerName).length) &&
  decide (0 < (strTrim s.customerPhone).length) &&
  decide (0 < (detailedCart s.cart s.lessons).length)

/-- The order payload built by submitOrder: the derived cart lines and
the cartTotal value, which goes through toFixed(2) and parseFloat. -/
def orderPayload (s : CheckoutState) : OrderPayload :=
  { name := s.customerName
    phone := s.customerPhone
    lessons := (detailedCart s.cart s.lessons).map
      (fun it => ⟨it.id, it.topic, it.quantity, it.price⟩)
    total := round2 (cartTotalRaw s.cart s.lessons) }

/-- The network environment submitOrder runs against: the outcome of
the order POST and, per lesson id, the outcome of the inventory PUT. -/
structure NetEnv where
  orderPost : FetchResult
  inventoryPut : String → FetchResult

/-- submitOrder from Checkout.  Invalid form: local error message, no
request of any kind.  Phase 1 rejected or non-ok: catch branch with the
transport or status detail, no PUT issued, no event emitted.  Phase 1
ok: one PUT per derived cart line is dispatched; a rejected PUT makes
Promise.all throw into the catch branch, while PUTs that all resolve,
ok or not, reach the success branch, where a non-ok response only adds
a console warning; the success branch shows the success message, resets
the form fields and emits orderPlaced. -/
def submitOrder (s : CheckoutState) (env : NetEnv) : CheckoutState × List Effect :=
  if isFormValid s then
    let payload := orderPayload s
    match env.orderPost with
    | .rejected m =>
        ({ s with isProcessing := false,
                  message := some ("Transaction failed. Details: " ++ m, .error) },
         [.postOrder payload, .consoleError ("Transaction Error: " ++ m)])
    | .resolved ok status =>
      if ok then
        let items := detailedCart s.cart s.lessons
        let putEffs := items.map (fun it => Effect.putInventory it.id it.quantity)
        let results := items.map (fun it => env.inventoryPut it.id)
        match results.findSome? (fun r =>
            match r with | .rejected m => some m | .resolved _ _ => none) with
        | some m =>
            ({ s with isProcessing := false,
                      message := some ("Transaction failed. Details: " ++ m, .error) },
             .postOrder payload :: putEffs ++
               [.consoleError ("Transaction Error: " ++ m)])
        | none =>
            let updateFailed := results.any (fun r =>
              match r with | .resolved ok _ => !ok | .rejected _ => true)
            ({ s with isProcessing := false, customerName := "", customerPhone := "",
                      message :=
                        some ("Order placed and stock updated successfully!", .success) },
             .postOrder payload :: putEffs ++
               (if updateFailed then
                  [Effect.consoleError "Warning: One or more lesson space updates failed."]
                else []) ++ [.emitOrderPlaced])
      else
        ({ s with isProcessing := false,
                  message := some
                    ("Transaction failed. Details: Order failed! Status: "
                      ++ toString status, .error) },
         [.postOrder payload,
          .consoleError ("Transaction Error: Order failed! Status: " ++ toString status)])
  else
    ({ s with isProcessing := false,
              message := some ("Please fill out your name and phone number.", .error) },
     [])


/-- The lessonsMap built by placeOrder: forEach over the lessons list
inserting by getLessonId, so a later lesson with the same id overwrites
an earlier one; lookup of one id. -/
def lessonsMapLookup (lessons : List Lesson) (lessonId : String) : Option Lesson :=
  lessons.foldl (fun acc l => if getLessonId l = some lessonId then some l else acc) none

/-- One iteration of the payload-building loop of placeOrder: skip a
cart entry whose id does not resolve in the map or whose id is empty or
the string 0; otherwise push an order line and add price times quantity
to the running total. -/
def buildOrderStep (lessons : List Lesson) (acc : List OrderLine × ℚ)
    (p : String × Nat) : List OrderLine × ℚ :=
  match lessonsMapLookup lessons p.1 with
  | none => acc
  | some lesson =>
    if p.1 = "" ∨ p.1 = "0" then acc
    else (acc.1 ++ [⟨p.1, lesson.topic, p.2, lesson.price⟩],
          acc.2 + lesson.price * (p.2 : ℚ))

/-- The payload lines and the exact calculated total of placeOrder, a
fold of the step over the cart in insertion order (placeOrder applies
no rounding to the total). -/
def buildOrderLines (cart : Cart) (lessons : List Lesson) : List OrderLine × ℚ :=
  cart.foldl (buildOrderStep lessons) ([], 0)

/-- The network environment placeOrder runs against: the outcome of the
order POST, the message field of the error body when the POST resolves
non-ok, and the outcome of the catalog refetch done on success. -/
structure PlaceEnv where
  post : FetchResult
  postErrorBody : Option String
  refetch : Except String (List Lesson)

/-- placeOrder from the current LessonList.vue.  Guards in order: empty
cart object, then missing name or phone (raw emptiness, no trim), each
rejected with a user-visible notification and no request; an empty
lines array likewise.  Otherwise the order is POSTed; on a non-ok or
rejected response a failure notification carries the detail; on success
a success notification is shown, the cart and the form are reset, the
checkout modal closes and the catalog is refetched. -/
def placeOrder (s : ListState) (env : PlaceEnv) : ListState × List Effect :=
  if s.cart.length = 0 then
    ({ s with notification := some ("Your cart is empty. Please add lessons first.", false) }, [])
  else if s.customerName = "" ∨ s.customerPhone = "" then
    ({ s with notification := some ("Please fill in both your Name and Phone number.", false) }, [])
  else
    let built := buildOrderLines s.cart s.lessons
    if built.1.length = 0 then
      ({ s with isPlacingOrder := false,
                notification := some ("No valid items found in the cart.", false) }, [])
    else
      let payload : OrderPayload := ⟨s.customerName, s.customerPhone, built.1, built.2⟩
      match env.post with
      | .rejected m =>
          ({ s with isPlacingOrder := false,
                    notification := some ("Failed to place order: " ++ m, false) },
           [.postOrder payload])
      | .resolved ok status =>
        if ok then
          let cleared := { s with cart := [], customerName := "", customerPhone := "",
                                  isCheckoutVisible := false,
                                  notification := some ("Order placed successfully! Thank you!", true) }
          let refreshed := fetchLessons cleared env.refetch
          ({ refreshed.1 with isPlacingOrder := false },
           .postOrder payload :: refreshed.2)
        else
          let detail := env.postErrorBody.getD ("HTTP error! status: " ++ toString status)
          ({ s with isPlacingOrder := false,
                    notification := some ("Failed to place order: " ++ detail, false) },
           [.postOrder payload])

/-- State of the App component. -/
structure AppState where
  cart : Cart
  lessons : List Lesson
  currentView : String
deriving DecidableEq, Repr

/-- handleOrderPlaced as defined in the App script: reset the cart and
switch back to the list view (whose remount refetches the catalog). -/
def handleOrderPlaced (s : AppState) : AppState :=
  { s with cart := [], currentView := "list" }

/-- The identifier the App template binds to the orderPlaced event of
the Checkout tag. -/
def checkoutOrderPlacedBinding : String := "handleOrderCompletion"

/-- The zero-argument handlers the App script defines, by name.  The
script defines handleOrderPlaced (and the one-argument updateCart,
updateLessons and handleRemoveItem, modelled separately); it defines no
function named handleOrderCompletion, so looking that name up in the
render scope yields undefined. -/
def appScriptHandler (binding : String) : Option (AppState → AppState) :=
  if binding = "handleOrderPlaced" then some handleOrderPlaced else none

/-- Dispatch of the orderPlaced event through the App template binding:
an undefined handler leaves the state unchanged. -/
def appOnOrderPlaced (s : AppState) : AppState :=
  match appScriptHandler checkoutOrderPlacedBinding with
  | some h => h s
  | none => s

/-- One reconciler operation on a fixed lesson: an addToCart call on it
or a handleRemoveItem call for its id with the given count. -/
inductive LessonOp where
  | add
  | remove (count : Nat)
deriving DecidableEq, Repr

/-- Apply one operation on the focal lesson, kept at index 0 of a
one-lesson store: add runs addToCart on index 0, remove runs
handleRemoveItem for the given id on the shared cart and lessons. -/
def lessonOpStep (lessonId : String) (s : ListState) : LessonOp → ListState
  | .add => (addToCart s 0).1
  | .remove n =>
      let out := handleRemoveItem s.cart s.lessons lessonId n
      { s with cart := out.1, lessons := out.2 }

/-- Run a sequence of operations on the focal lesson. -/
def runLessonOps (lessonId : String) (s : ListState) (ops : List LessonOp) : ListState :=
  ops.foldl (lessonOpStep lessonId) s

/-- Check, along the run, that every remove call requests no more than
the quantity then held in the cart (a remove on an id absent from the
cart is a no-op and is allowed as well). -/
def removesValidB (lessonId : String) (s : ListState) : List LessonOp → Bool
  | [] => true
  | op :: rest =>
      (match op with
       | .add => true
       | .remove n =>
           decide (Cart.getq s.cart lessonId = 0) || decide (n ≤ Cart.getq s.cart lessonId)) &&
      removesValidB lessonId (lessonOpStep lessonId s op) rest

/-- A fresh LessonList state holding exactly the given lessons and an
empty cart, with the startup values of the remaining fields. -/
def initListState (lessons : List Lesson) : ListState :=
  { lessons := lessons, cart := [], searchTerm := "", minSpaces := 1,
    sortField := "topic", sortOrder := "asc", isLoading := false,
    isPlacingOrder := false, isCheckoutVisible := false,
    customerName := "", customerPhone := "", notification := none }

/-- The invariant tracked across add and remove operations on the focal
lesson: the store still holds exactly one lesson, its keys still
resolve to the focal id, its space is nonnegative, and cart quantity
plus space equals the baseline S. -/
def C1Inv (lessonId : String) (S : Int) (s : ListState) : Prop :=
  ∃ l : Lesson, s.lessons = [l] ∧ getLessonId l = some lessonId ∧
    rawLessonKey l = some lessonId ∧ 0 ≤ l.space ∧
    (Cart.getq s.cart lessonId : Int) + l.space = S

/-- The space of the single lesson of a one-lesson store. -/
def headSpace (s : ListState) : Int :=
  match s.lessons with
  | l :: _ => l.space
  | [] => 0

/-- Sample lesson with a wrapped id L1. -/
def lessonL1 : Lesson :=
  { _id := .oid "L1", topic := "Math", location := "Hendon", price := 10, space := 5 }

/-- Sample lesson with a wrapped id L2. -/
def lessonL2 : Lesson :=
  { _id := .oid "L2", topic := "Art", location := "Colindale", price := 5, space := 3 }

/-- Sample sold-out lesson with a wrapped id L3 and zero space. -/
def lessonSoldOut : Lesson :=
  { _id := .oid "L3", topic := "Gym", location := "Golders Green", price := 2, space := 0 }

/-- Sample lesson whose id is the bare two-character string L1. -/
def lessonShortBareId : Lesson :=
  { _id := .str "L1", topic := "Math", location := "Hendon", price := 10, space := 5 }

/-- Sample lesson priced at one thousandth, below one cent. -/
def lessonSubCent : Lesson :=
  { _id := .oid "LX", topic := "Chem", location := "Brent Cross", price := 1 / 1000, space := 3 }

/-- Sample lesson with a wrapped id L1 and one remaining space. -/
def lessonOneSpace : Lesson :=
  { _id := .oid "L1", topic := "Math", location := "Hendon", price := 10, space := 1 }

/-- Checkout state with a valid form and one L1 unit in the cart. -/
def csValid : CheckoutState :=
  { cart := [("L1", 1)], lessons := [lessonL1], customerName := "Ann",
    customerPhone := "0123456789", isProcessing := false, message := none }

/-- Checkout state with a valid form and two distinct lessons in the cart. -/
def csTwo : CheckoutState :=
  { cart := [("L1", 1), ("L2", 2)], lessons := [lessonL1, lessonL2],
    customerName := "Ann", customerPhone := "0123456789",
    isProcessing := false, message := none }

/-- Checkout state whose only line is the sub-cent lesson. -/
def csSubCent : CheckoutState :=
  { cart := [("LX", 1)], lessons := [lessonSubCent], customerName := "Ann",
    customerPhone := "0123456789", isProcessing := false, message := none }

/-- Checkout state with an empty cart, hence an invalid form. -/
def csEmptyCart : CheckoutState :=
  { cart := [], lessons := [lessonL1], customerName := "Ann",
    customerPhone := "0123456789", isProcessing := false, message := none }

/-- App state as it stands right after a submission from checkout. -/
def appAfterSubmit : AppState :=
  { cart := [("L1", 1), ("L2", 2)], lessons := [lessonL1, lessonL2],
    currentView := "checkout" }

/-- Network environment: order POST succeeds, every inventory PUT
resolves with a non-ok status. -/
def envPutsFail : NetEnv :=
  { orderPost := .resolved true 201, inventoryPut := fun _ => .resolved false 500 }

/-- Network environment: order POST resolves non-ok with status 500,
inventory PUTs would succeed. -/
def envPostFails : NetEnv :=
  { orderPost := .resolved false 500, inventoryPut := fun _ => .resolved true 200 }

/-- LessonList state showing only the sold-out lesson. -/
def lsSoldOut : ListState := initListState [lessonSoldOut]

/-- LessonList state holding one fetched lesson, before a failing refresh. -/
def lsBeforeRefresh : ListState := initListState [lessonL1]

/-- Sample lesson whose wrapped id is the string 0. -/
def lessonZeroId : Lesson :=
  { _id := .oid "0", topic := "Music", location := "Kingsbury", price := 8, space := 4 }

/-- Sample lesson whose bare string id has exactly ten characters. -/
def lessonLongBareId : Lesson :=
  { _id := .str "abcdefghij", topic := "Dance", location := "Harrow", price := 7, space := 2 }

/-- LessonList state showing only the short-bare-id lesson. -/
def lsShortId : ListState := initListState [lessonShortBareId]

/-- LessonList state showing only the zero-id lesson. -/
def lsZeroId : ListState := initListState [lessonZeroId]

/-- A throwaway placeOrder environment for witnesses. -/
def envPlaceIdle : PlaceEnv :=
  { post := .resolved true 200, postErrorBody := none, refetch := .ok [] }

/-- cart[k] reads back the value just assigned to k. -/
theorem Cart.getq_setq_self (c : Cart) (k : String) (v : Nat) :
    Cart.getq (Cart.setq c k v) k = v := by
  induction c with
  | nil => simp [Cart.setq, Cart.getq]
  | cons p rest ih =>
      by_cases h : p.1 = k
      · simp [Cart.setq, Cart.getq, h]
      · simp [Cart.setq, Cart.getq, h, ih]

/-- Assigning to k leaves the value read at any other key unchanged. -/
theorem Cart.getq_setq_ne (c : Cart) (k k2 : String) (v : Nat) (h : k2 ≠ k) :
    Cart.getq (Cart.setq c k v) k2 = Cart.getq c k2 := by
  induction c with
  | nil => simp [Cart.setq, Cart.getq, Ne.symm h]
  | cons p rest ih =>
      by_cases hp : p.1 = k
      · have hpk2 : ¬ (p.1 = k2) := by rw [hp]; exact Ne.symm h
        simp [Cart.setq, Cart.getq, hp, Ne.symm h, hpk2]
      · by_cases hp2 : p.1 = k2
        · simp [Cart.setq, Cart.getq, hp, hp2, h, Ne.symm h]
        · simp [Cart.setq, Cart.getq, hp, hp2, ih]

/-- Deleting k makes the value read at k the missing-key default 0. -/
theorem Cart.getq_del_self (c : Cart) (k : String) :
    Cart.getq (Cart.del c k) k = 0 := by
  induction c with
  | nil => simp [Cart.del, Cart.getq]
  | cons p rest ih =>
      by_cases h : p.1 = k
      · simp [Cart.del, h, ih]
      · simp [Cart.del, Cart.getq, h, ih]

/-- Deleting k leaves the value read at any other key unchanged. -/
theorem Cart.getq_del_ne (c : Cart) (k k2 : String) (h : k2 ≠ k) :
    Cart.getq (Cart.del c k) k2 = Cart.getq c k2 := by
  induction c with
  | nil => simp [Cart.del]
  | cons p rest ih =>
      by_cases hp : p.1 = k
      · have hpk2 : ¬ (p.1 = k2) := by rw [hp]; exact Ne.symm h
        simp [Cart.del, Cart.getq, hp, hpk2, ih, h, Ne.symm h]
      · by_cases hp2 : p.1 = k2
        · simp [Cart.del, Cart.getq, hp, hp2, h, Ne.symm h]
        · simp [Cart.del, Cart.getq, hp, hp2, ih]

/-- After deleting k the cart holds no entry for k. -/
theorem Cart.hasKey_del_self (c : Cart) (k : String) :
    Cart.hasKey (Cart.del c k) k = false := by
  induction c with
  | nil => simp [Cart.del, Cart.hasKey]
  | cons p rest ih =>
      by_cases h : p.1 = k
      · simp [Cart.del, h, ih]
      · simp [Cart.del, Cart.hasKey, h, ih]

/-- After assigning to k the cart holds an entry for k. -/
theorem Cart.hasKey_setq_self (c : Cart) (k : String) (v : Nat) :
    Cart.hasKey (Cart.setq c k v) k = true := by
  induction c with
  | nil => simp [Cart.setq, Cart.hasKey]
  | cons p rest ih =>
      by_cases h : p.1 = k
      · simp [Cart.setq, Cart.hasKey, h]
      · simp [Cart.setq, Cart.hasKey, h, ih]

/-- Assigning to k preserves the sublist of entries at any other key. -/
theorem Cart.filter_setq (c : Cart) (k k2 : String) (v : Nat) (h : k2 ≠ k) :
    List.filter (fun p => p.1 == k2) (Cart.setq c k v) =
      List.filter (fun p => p.1 == k2) c := by
  induction c with
  | nil => simp [Cart.setq, List.filter_cons, beq_iff_eq, Ne.symm h]
  | cons p rest ih =>
      by_cases hp : p.1 = k
      · have hpk2 : ¬ (p.1 = k2) := by rw [hp]; exact Ne.symm h
        simp [Cart.setq, List.filter_cons, beq_iff_eq, hp, Ne.symm h, hpk2]
      · by_cases hp2 : p.1 = k2
        · simp [Cart.setq, List.filter_cons, beq_iff_eq, hp, hp2, ih, h, Ne.symm h]
        · simp [Cart.setq, List.filter_cons, beq_iff_eq, hp, hp2, ih]

/-- Deleting k preserves the sublist of entries at any other key. -/
theorem Cart.filter_del (c : Cart) (k k2 : String) (h : k2 ≠ k) :
    List.filter (fun p => p.1 == k2) (Cart.del c k) =
      List.filter (fun p => p.1 == k2) c := by
  induction c with
  | nil => simp [Cart.del]
  | cons p rest ih =>
      by_cases hp : p.1 = k
      · have hpk2 : ¬ (p.1 = k2) := by rw [hp]; exact Ne.symm h
        simp [Cart.del, List.filter_cons, beq_iff_eq, hp, hpk2, ih, h, Ne.symm h]
      · by_cases hp2 : p.1 = k2
        · simp [Cart.del, List.filter_cons, beq_iff_eq, hp, hp2, ih, h, Ne.symm h]
        · simp [Cart.del, List.filter_cons, beq_iff_eq, hp, hp2, ih]

/-- The compensation step leaves the lessons array unchanged when no
lesson resolves to the id. -/
theorem bumpSpaceFirst_of_no_match (ls : List Lesson) (lessonId : String) (a : Int)
    (h : ∀ l, l ∈ ls → rawLessonKey l ≠ some lessonId) :
    bumpSpaceFirst ls lessonId a = ls := by
  induction ls with
  | nil => rfl
  | cons l rest ih =>
      have hl : rawLessonKey l ≠ some lessonId := h l (List.mem_cons_self l rest)
      simp only [bumpSpaceFirst, hl, if_false]
      rw [ih (fun l2 hl2 => h l2 (List.mem_cons_of_mem l hl2))]

/-- The compensation step adds the amount to the first matching lesson
and leaves every other record unchanged. -/
theorem bumpSpaceFirst_first_match (pre suf : List Lesson) (l : Lesson)
    (lessonId : String) (a : Int)
    (hpre : ∀ l2, l2 ∈ pre → rawLessonKey l2 ≠ some lessonId)
    (hl : rawLessonKey l = some lessonId) :
    bumpSpaceFirst (pre ++ l :: suf) lessonId a =
      pre ++ { l with space := l.space + a } :: suf := by
  induction pre with
  | nil => simp [bumpSpaceFirst, hl]
  | cons p rest ih =>
      have hp : rawLessonKey p ≠ some lessonId := hpre p (List.mem_cons_self p rest)
      have ih2 := ih (fun l2 hl2 => hpre l2 (List.mem_cons_of_mem p hl2))
      simp only [List.cons_append, bumpSpaceFirst, hp, if_false]
      rw [show List.append rest (l :: suf) = rest ++ l :: suf from rfl, ih2]

/-- Claim C4 counterexample: with one unit of L1 in the cart, removing
two units adds the full requested 2 to the cached space (5 becomes 7),
not the actually removed amount min 2 1 = 1 (which would give 6). -/
theorem C4_space_over_increment :
    ((handleRemoveItem [("L1", 1)] [lessonL1] "L1" 2).2.map Lesson.space) = [7] ∧
    lessonL1.space = 5 ∧ (5 + (min 2 1 : Int)) = 6 ∧ (7 : Int) ≠ 6 := by
  refine ⟨rfl, rfl, by decide, by decide⟩

/-- Claim C4, amended: for a cart holding q of the lesson, remove
decreases the quantity by exactly min count q, deletes the entry when
it reaches 0 and never stores 0; with the id absent it is a no-op; but
the first matching cached lesson gains the full requested count, even
when count exceeds q. -/
theorem C4_remove_semantics :
    (∀ (cart : Cart) (lessons : List Lesson) (lessonId : String) (count : Nat),
        Cart.getq cart lessonId = 0 →
        handleRemoveItem cart lessons lessonId count = (cart, lessons)) ∧
    (∀ (cart : Cart) (lessons : List Lesson) (lessonId : String) (count : Nat),
        0 < Cart.getq cart lessonId →
        Cart.getq (handleRemoveItem cart lessons lessonId count).1 lessonId
            = Cart.getq cart lessonId - min count (Cart.getq cart lessonId) ∧
        (Cart.hasKey (handleRemoveItem cart lessons lessonId count).1 lessonId = true
            ↔ count < Cart.getq cart lessonId) ∧
        (∀ pre l suf, lessons = pre ++ l :: suf →
            (∀ l2, l2 ∈ pre → rawLessonKey l2 ≠ some lessonId) →
            rawLessonKey l = some lessonId →
            (handleRemoveItem cart lessons lessonId count).2
              = pre ++ { l with space := l.space + (count : Int) } :: suf)) := by
  constructor
  · intro cart lessons lessonId count h
    simp [handleRemoveItem, h]
  · intro cart lessons lessonId count h
    by_cases hz : Cart.getq cart lessonId - count = 0
    · refine ⟨?_, ?_, ?_⟩
      · simp only [handleRemoveItem, h, if_true, hz]
        rw [Cart.getq_del_self]
        omega
      · simp only [handleRemoveItem, h, if_true, hz]
        rw [Cart.hasKey_del_self]
        constructor
        · intro hfalse; cases hfalse
        · intro hlt; omega
      · intro pre l suf hls hpre hl
        subst hls
        simp only [handleRemoveItem, h, if_true, hz]
        exact bumpSpaceFirst_first_match pre suf l lessonId _ hpre hl
    · refine ⟨?_, ?_, ?_⟩
      · simp only [handleRemoveItem, h, if_true, hz, if_false]
        rw [Cart.getq_setq_self]
        omega
      · simp only [handleRemoveItem, h, if_true, hz, if_false]
        rw [Cart.hasKey_setq_self]
        constructor
        · intro _; omega
        · intro _; rfl
      · intro pre l suf hls hpre hl
        subst hls
        simp only [handleRemoveItem, h, if_true, hz, if_false]
        exact bumpSpaceFirst_first_match pre suf l lessonId _ hpre hl

/-- Claim C4 witness at concrete inputs: a remove on an absent id is a
no-op, and removing one of two held units leaves quantity 1 and adds 1
to the matched space. -/
theorem C4_remove_semantics_witness :
    handleRemoveItem [] [lessonL1] "L9" 1 = ([], [lessonL1]) ∧
    Cart.getq (handleRemoveItem [("L1", 2)] [lessonL1] "L1" 1).1 "L1" = 2 - min 1 2 ∧
    (handleRemoveItem [("L1", 2)] [lessonL1] "L1" 1).2
      = [] ++ { lessonL1 with space := lessonL1.space + (1 : Int) } :: [] := by
  refine ⟨C4_remove_semantics.1 [] [lessonL1] "L9" 1 (by decide), ?_, ?_⟩
  · exact (C4_remove_semantics.2 [("L1", 2)] [lessonL1] "L1" 1 (by decide)).1
  · exact (C4_remove_semantics.2 [("L1", 2)] [lessonL1] "L1" 1 (by decide)).2.2
      [] lessonL1 [] rfl (by intro l2 hl2; cases hl2) (by decide)

/-- Claim C10: removing an id that is in the cart but resolves to no
cached lesson decrements (and at zero deletes) the cart entry, leaves
every lesson record unchanged, and leaves every other cart key alone. -/
theorem C10_remove_missing_lesson_frame (cart : Cart) (lessons : List Lesson)
    (lessonId : String) (count : Nat)
    (hq : 0 < Cart.getq cart lessonId)
    (hmiss : ∀ l, l ∈ lessons → rawLessonKey l ≠ some lessonId) :
    (handleRemoveItem cart lessons lessonId count).2 = lessons ∧
    Cart.getq (handleRemoveItem cart lessons lessonId count).1 lessonId
        = Cart.getq cart lessonId - count ∧
    (Cart.getq cart lessonId ≤ count →
        Cart.hasKey (handleRemoveItem cart lessons lessonId count).1 lessonId = false) ∧
    (∀ k, k ≠ lessonId →
        List.filter (fun p => p.1 == k) (handleRemoveItem cart lessons lessonId count).1
          = List.filter (fun p => p.1 == k) cart) := by
  by_cases hz : Cart.getq cart lessonId - count = 0
  · refine ⟨?_, ?_, ?_, ?_⟩
    · simp only [handleRemoveItem, hq, if_true, hz]
      exact bumpSpaceFirst_of_no_match lessons lessonId _ hmiss
    · simp only [handleRemoveItem, hq, if_true, hz, if_pos rfl]
      rw [Cart.getq_del_self]
    · intro _
      simp only [handleRemoveItem, hq, if_true, hz, if_pos rfl]
      exact Cart.hasKey_del_self cart lessonId
    · intro k hk
      simp only [handleRemoveItem, hq, if_true, hz, if_pos rfl]
      exact Cart.filter_del cart lessonId k hk
  · refine ⟨?_, ?_, ?_, ?_⟩
    · simp only [handleRemoveItem, hq, if_true, hz, if_false]
      exact bumpSpaceFirst_of_no_match lessons lessonId _ hmiss
    · simp only [handleRemoveItem, hq, if_true, hz, if_false]
      exact Cart.getq_setq_self cart lessonId _
    · intro hle
      omega
    · intro k hk
      simp only [handleRemoveItem, hq, if_true, hz, if_false]
      exact Cart.filter_setq cart lessonId k _ hk

/-- Claim C10 witness: removing the single held unit of an id unknown
to the lessons list empties that cart key, deletes its entry, keeps the
lesson records and keeps the other cart entry. -/
theorem C10_remove_missing_lesson_frame_witness :
    (handleRemoveItem [("L1", 1), ("L2", 2)] [lessonL2] "L1" 1).2 = [lessonL2] ∧
    Cart.getq (handleRemoveItem [("L1", 1), ("L2", 2)] [lessonL2] "L1" 1).1 "L1" = 1 - 1 ∧
    Cart.hasKey (handleRemoveItem [("L1", 1), ("L2", 2)] [lessonL2] "L1" 1).1 "L1" = false ∧
    List.filter (fun p => p.1 == "L2")
        (handleRemoveItem [("L1", 1), ("L2", 2)] [lessonL2] "L1" 1).1
      = List.filter (fun p => p.1 == "L2") [("L1", 1), ("L2", 2)] := by
  have h := C10_remove_missing_lesson_frame [("L1", 1), ("L2", 2)] [lessonL2] "L1" 1
    (by decide) (by intro l hl; cases hl with
                    | head => decide
                    | tail _ h2 => cases h2)
  exact ⟨h.1, h.2.1, h.2.2.1 (by decide), h.2.2.2 "L2" (by decide)⟩

/-- Claim C5 counterexample: addToCart on the sold-out lesson leaves
the whole component state unchanged, in particular no user-visible
notification is shown; the only output is a console warning. -/
theorem C5_soldout_silent :
    (addToCart lsSoldOut 0).1 = lsSoldOut ∧
    (addToCart lsSoldOut 0).1.notification = none ∧
    (addToCart lsSoldOut 0).2 = [Effect.consoleWarn "Cannot add Gym, sold out."] := by
  refine ⟨rfl, rfl, rfl⟩

/-- Claim C5, amended: addToCart on an invalid-id lesson (null id or
the id 0) mutates neither cart nor lessons and shows a user-visible
rejection notification; addToCart on a valid-id sold-out lesson is a
complete no-op whose only output is a console warning, with no
user-visible notification. -/
theorem C5_add_rejection_semantics :
    (∀ (s : ListState) (i : Nat) (lesson : Lesson),
        s.lessons.get? i = some lesson → getLessonId lesson = none →
        (addToCart s i).1.cart = s.cart ∧ (addToCart s i).1.lessons = s.lessons ∧
        (addToCart s i).1.notification
          = some ("Failed to add " ++ lesson.topic ++ ": Invalid ID.", false)) ∧
    (∀ (s : ListState) (i : Nat) (lesson : Lesson),
        s.lessons.get? i = some lesson → getLessonId lesson = some "0" →
        (addToCart s i).1.cart = s.cart ∧ (addToCart s i).1.lessons = s.lessons ∧
        (addToCart s i).1.notification
          = some ("Failed to add " ++ lesson.topic ++ ": Invalid ID.", false)) ∧
    (∀ (s : ListState) (i : Nat) (lesson : Lesson),
        s.lessons.get? i = some lesson →
        getLessonId lesson ≠ none → getLessonId lesson ≠ some "0" →
        lesson.space ≤ 0 →
        (addToCart s i).1 = s ∧
        (addToCart s i).2
          = [Effect.consoleWarn ("Cannot add " ++ lesson.topic ++ ", sold out.")]) := by
  refine ⟨?_, ?_, ?_⟩
  · intro s i lesson hget hid
    have hget2 : s.lessons[i]? = some lesson := by
      rw [← List.get?_eq_getElem?]; exact hget
    simp [addToCart, hget2, hid]
  · intro s i lesson hget hid
    have hget2 : s.lessons[i]? = some lesson := by
      rw [← List.get?_eq_getElem?]; exact hget
    simp [addToCart, hget2, hid]
  · intro s i lesson hget hv1 hv2 hsp
    have hget2 : s.lessons[i]? = some lesson := by
      rw [← List.get?_eq_getElem?]; exact hget
    cases hgl : getLessonId lesson with
    | none => exact absurd hgl hv1
    | some x =>
        have hx : ¬ (x = "0") := by
          intro hx0
          exact hv2 (by rw [hgl, hx0])
        constructor
        · simp [addToCart, hget2, hgl, hx, hsp]
        · simp [addToCart, hget2, hgl, hx, hsp]

/-- Claim C5 witness: the short-bare-id lesson is rejected with a
user-visible notification and no mutation, and the sold-out lesson is
silently skipped. -/
theorem C5_add_rejection_semantics_witness :
    ((addToCart lsShortId 0).1.cart = lsShortId.cart ∧
     (addToCart lsShortId 0).1.lessons = lsShortId.lessons ∧
     (addToCart lsShortId 0).1.notification
       = some ("Failed to add Math: Invalid ID.", false)) ∧
    ((addToCart lsZeroId 0).1.cart = lsZeroId.cart ∧
     (addToCart lsZeroId 0).1.lessons = lsZeroId.lessons ∧
     (addToCart lsZeroId 0).1.notification
       = some ("Failed to add Music: Invalid ID.", false)) ∧
    ((addToCart lsSoldOut 0).1 = lsSoldOut ∧
     (addToCart lsSoldOut 0).2 = [Effect.consoleWarn "Cannot add Gym, sold out."]) := by
  refine ⟨C5_add_rejection_semantics.1 lsShortId 0 lessonShortBareId rfl (by decide),
          C5_add_rejection_semantics.2.1 lsZeroId 0 lessonZeroId rfl (by decide),
          C5_add_rejection_semantics.2.2 lsSoldOut 0 lessonSoldOut rfl
            (by decide) (by decide) (by decide)⟩

/-- Claim C8 counterexample: a record whose _id is the bare
two-character string L1 is mapped to null by getLessonId, not to L1. -/
theorem C8_short_bare_id :
    getLessonId lessonShortBareId = none ∧
    ¬ getLessonId lessonShortBareId = some "L1" := by
  refine ⟨rfl, by decide⟩

/-- Claim C8, amended: a bare string id normalizes to itself only when
it has at least 10 characters, and then agrees with the raw downstream
key; shorter bare ids yield null; a wrapped nonempty id normalizes to
its $oid string and agrees with the raw downstream key. -/
theorem C8_id_normalization :
    (∀ (l : Lesson) (s : String), l._id = IdField.str s → 10 ≤ s.length →
        getLessonId l = some s ∧ rawLessonKey l = some s) ∧
    (∀ (l : Lesson) (s : String), l._id = IdField.oid s → s ≠ "" →
        getLessonId l = some s ∧ rawLessonKey l = some s) ∧
    (∀ (l : Lesson) (s : String), l._id = IdField.str s → s.length < 10 →
        getLessonId l = none) := by
  refine ⟨?_, ?_, ?_⟩
  · intro l s hid h
    simp [getLessonId, rawLessonKey, hid, h]
  · intro l s hid h
    simp [getLessonId, rawLessonKey, hid, h]
  · intro l s hid h
    simp [getLessonId, hid, Nat.not_le.mpr h]

/-- Claim C8 witness: the ten-character bare id and the wrapped id L1
both normalize to themselves, and the two-character bare id yields
null. -/
theorem C8_id_normalization_witness :
    (getLessonId lessonLongBareId = some "abcdefghij" ∧
     rawLessonKey lessonLongBareId = some "abcdefghij") ∧
    (getLessonId lessonL1 = some "L1" ∧ rawLessonKey lessonL1 = some "L1") ∧
    getLessonId lessonShortBareId = none := by
  refine ⟨C8_id_normalization.1 lessonLongBareId "abcdefghij" rfl (by decide),
          C8_id_normalization.2.1 lessonL1 "L1" rfl (by decide),
          C8_id_normalization.2.2 lessonShortBareId "L1" rfl (by decide)⟩

/-- Claim C9 counterexample: a failing refresh clears the list and
leaves the notification state untouched (no user-visible report, only a
console line), and the older fetchLessons variant does not even clear
the stale list. -/
theorem C9_no_user_visible_surfacing :
    (fetchLessons lsBeforeRefresh (Except.error "HTTP error! status: 500")).1.lessons = [] ∧
    (fetchLessons lsBeforeRefresh (Except.error "HTTP error! status: 500")).1.notification
      = none ∧
    (fetchLessonsOld lsBeforeRefresh (Except.error "HTTP error! status: 500")).1.lessons
      = [lessonL1] := by
  refine ⟨rfl, rfl, rfl⟩

/-- Claim C9, amended: on a failing query the current fetchLessons
clears the cached list to empty, leaves the user-visible notification
exactly as it was (the failure goes to the console only), and issues
exactly one catalog request with no retry; the older variant leaves the
stale list in place. -/
theorem C9_fetch_failure_behavior (s : ListState) (e : String) :
    (fetchLessons s (Except.error e)).1.lessons = [] ∧
    (fetchLessons s (Except.error e)).1.notification = s.notification ∧
    List.countP (fun eff => match eff with
      | Effect.getLessons _ _ => true
      | _ => false) (fetchLessons s (Except.error e)).2 = 1 ∧
    Effect.consoleError ("Error fetching lessons: " ++ e)
      ∈ (fetchLessons s (Except.error e)).2 ∧
    (fetchLessonsOld s (Except.error e)).1.lessons = s.lessons := by
  refine ⟨rfl, rfl, rfl, ?_, rfl⟩
  simp [fetchLessons]

/-- Claim C3: a phase-1 order POST that resolves non-ok aborts the
submission: no inventory PUT is issued, no orderPlaced event is
emitted, the cart prop is untouched, and the error message carries the
status detail. -/
theorem C3_phase1_failure_aborts (s : CheckoutState) (env : NetEnv) (status : Nat)
    (hval : isFormValid s = true)
    (hpost : env.orderPost = FetchResult.resolved false status) :
    (∀ lessonId q, Effect.putInventory lessonId q ∉ (submitOrder s env).2) ∧
    Effect.emitOrderPlaced ∉ (submitOrder s env).2 ∧
    (submitOrder s env).1.cart = s.cart ∧
    (submitOrder s env).1.message =
      some ("Transaction failed. Details: Order failed! Status: " ++ toString status,
        MsgKind.error) := by
  refine ⟨?_, ?_, ?_, ?_⟩ <;> simp [submitOrder, hval, hpost]

/-- Claim C3 witness: the valid one-line checkout against a POST that
resolves with status 500. -/
theorem C3_phase1_failure_aborts_witness :
    (∀ lessonId q, Effect.putInventory lessonId q ∉ (submitOrder csValid envPostFails).2) ∧
    Effect.emitOrderPlaced ∉ (submitOrder csValid envPostFails).2 ∧
    (submitOrder csValid envPostFails).1.cart = csValid.cart ∧
    (submitOrder csValid envPostFails).1.message =
      some ("Transaction failed. Details: Order failed! Status: " ++ toString 500,
        MsgKind.error) :=
  C3_phase1_failure_aborts csValid envPostFails 500 (by decide) rfl

/-- Claim C2, evaluated at the failing input: phase 1 resolves ok and
both phase-2 PUTs resolve non-ok; the code still shows the success
message, dispatches both PUTs, aggregates the failures into one console
warning, and emits orderPlaced; but the App template binds orderPlaced
to the undefined identifier handleOrderCompletion, so the event changes
nothing: the cart is not cleared and no view switch or refresh
follows. -/
theorem C2_phase2_failure_behavior :
    (submitOrder csTwo envPutsFail).1.message
      = some ("Order placed and stock updated successfully!", MsgKind.success) ∧
    (submitOrder csTwo envPutsFail).1.customerName = "" ∧
    Effect.putInventory "L1" 1 ∈ (submitOrder csTwo envPutsFail).2 ∧
    Effect.putInventory "L2" 2 ∈ (submitOrder csTwo envPutsFail).2 ∧
    Effect.consoleError "Warning: One or more lesson space updates failed."
      ∈ (submitOrder csTwo envPutsFail).2 ∧
    Effect.emitOrderPlaced ∈ (submitOrder csTwo envPutsFail).2 ∧
    appScriptHandler checkoutOrderPlacedBinding = none ∧
    appOnOrderPlaced appAfterSubmit = appAfterSubmit ∧
    appAfterSubmit.cart ≠ [] ∧
    appAfterSubmit.currentView ≠ "list" ∧
    handleOrderPlaced appAfterSubmit ≠ appAfterSubmit := by
  refine ⟨rfl, rfl, by decide, by decide, by decide, by decide, rfl, rfl,
    by decide, by decide, ?_⟩
  intro hfix
  have hcart : (handleOrderPlaced appAfterSubmit).cart = appAfterSubmit.cart := by
    rw [hfix]
  simp [handleOrderPlaced, appAfterSubmit] at hcart

/-- A string has positive length exactly when it is nonempty. -/
theorem string_length_pos_iff (t : String) : 0 < t.length ↔ t ≠ "" := by
  show 0 < t.data.length ↔ _
  rw [List.length_pos]
  constructor
  · intro h heq
    exact h (by rw [heq])
  · intro h hdat
    apply h
    cases t
    simp_all

/-- Claim C6: the submission validity predicate is exactly the
conjunction of trimmed-name nonempty, trimmed-phone nonempty and
derived cart nonempty; an invalid Checkout submission sets a local
error message and performs no request of any kind; and the placeOrder
guards likewise reject an empty cart or a missing name or phone with a
notification and no request. -/
theorem C6_validity_guard :
    (∀ s : CheckoutState,
        isFormValid s = true ↔
          (strTrim s.customerName ≠ "" ∧ strTrim s.customerPhone ≠ "" ∧
           detailedCart s.cart s.lessons ≠ [])) ∧
    (∀ (s : CheckoutState) (env : NetEnv), isFormValid s = false →
        (submitOrder s env).2 = [] ∧
        (submitOrder s env).1.message =
          some ("Please fill out your name and phone number.", MsgKind.error)) ∧
    (∀ (s : ListState) (env : PlaceEnv),
        (s.cart = [] ∨ s.customerName = "" ∨ s.customerPhone = "") →
        (placeOrder s env).2 = [] ∧
        ∃ m, (placeOrder s env).1.notification = some (m, false)) := by
  refine ⟨?_, ?_, ?_⟩
  · intro s
    simp [isFormValid, Bool.and_eq_true, decide_eq_true_eq,
      string_length_pos_iff, List.length_pos, and_assoc]
  · intro s env h
    constructor
    · simp [submitOrder, h]
    · simp [submitOrder, h]
  · intro s env h
    by_cases hc : s.cart.length = 0
    · constructor
      · simp [placeOrder, hc]
      · exact ⟨"Your cart is empty. Please add lessons first.", by simp [placeOrder, hc]⟩
    · have hnp : s.customerName = "" ∨ s.customerPhone = "" := by
        rcases h with h1 | h2 | h3
        · exact absurd (by rw [h1]; rfl) hc
        · exact Or.inl h2
        · exact Or.inr h3
      constructor
      · simp [placeOrder, hc, hnp]
      · exact ⟨"Please fill in both your Name and Phone number.", by simp [placeOrder, hc, hnp]⟩

/-- Claim C6 witness: the empty-cart checkout state is invalid, its
submission performs no request and surfaces the local error message;
and a fresh LessonList state with an empty cart is rejected by the
placeOrder guard with a notification and no request. -/
theorem C6_validity_guard_witness :
    (isFormValid csEmptyCart = true ↔
      (strTrim csEmptyCart.customerName ≠ "" ∧ strTrim csEmptyCart.customerPhone ≠ "" ∧
       detailedCart csEmptyCart.cart csEmptyCart.lessons ≠ [])) ∧
    ((submitOrder csEmptyCart envPostFails).2 = [] ∧
     (submitOrder csEmptyCart envPostFails).1.message =
       some ("Please fill out your name and phone number.", MsgKind.error)) ∧
    ((placeOrder lsBeforeRefresh envPlaceIdle).2 = [] ∧
     ∃ m, (placeOrder lsBeforeRefresh envPlaceIdle).1.notification = some (m, false)) :=
  ⟨C6_validity_guard.1 csEmptyCart,
   C6_validity_guard.2.1 csEmptyCart envPostFails (by decide),
   C6_validity_guard.2.2 lsBeforeRefresh envPlaceIdle (Or.inl rfl)⟩

/-- Every derived cart line carries subtotal = price times quantity. -/
theorem detailedCart_subtotal (cart : Cart) (lessons : List Lesson) :
    ∀ it ∈ detailedCart cart lessons, it.subtotal = it.price * (it.quantity : ℚ) := by
  induction cart with
  | nil => intro it h; cases h
  | cons p rest ih =>
      intro it h
      simp only [detailedCart, List.filterMap_cons] at h
      by_cases hq : 0 < p.2
      · rw [if_pos hq] at h
        cases hf : lessons.find? (fun l => rawLessonKey l == some p.1) with
        | none =>
            rw [hf] at h
            exact ih it h
        | some lesson =>
            rw [hf] at h
            rcases List.mem_cons.mp h with h1 | h2
            · rw [h1]
            · exact ih it h2
      · rw [if_neg hq] at h
        exact ih it h

/-- Folding addition of subtotals from any start value equals the start
value plus the summed subtotals. -/
theorem foldl_add_subtotal (l : List CartItem) (a : ℚ) :
    l.foldl (fun acc it => acc + it.subtotal) a
      = a + (l.map (fun it => it.subtotal)).sum := by
  induction l generalizing a with
  | nil => simp
  | cons it rest ih =>
      simp only [List.foldl_cons, List.map_cons, List.sum_cons, ih]
      ring

/-- Rounding to two decimals is the identity on whole numbers of
cents. -/
theorem round2_cents (n : ℤ) : round2 ((n : ℚ) / 100) = (n : ℚ) / 100 := by
  rw [round2]
  have h1 : (n : ℚ) / 100 * 100 + 1 / 2 = (n : ℚ) + 1 / 2 := by
    rw [div_mul_cancel₀]
    norm_num
  rw [h1]
  have h2 : ⌊(n : ℚ) + 1 / 2⌋ = n + ⌊(1 / 2 : ℚ)⌋ := Int.floor_int_add n _
  rw [h2]
  norm_num

/-- Along the placeOrder payload loop, the running total always equals
the summed price times quantity of the lines accumulated so far. -/
theorem buildOrder_foldl_inv (cart : Cart) (lessons : List Lesson)
    (acc : List OrderLine × ℚ)
    (h : acc.2 = (acc.1.map (fun ln => ln.price * (ln.quantity : ℚ))).sum) :
    (cart.foldl (buildOrderStep lessons) acc).2 =
      ((cart.foldl (buildOrderStep lessons) acc).1.map
        (fun ln => ln.price * (ln.quantity : ℚ))).sum := by
  induction cart generalizing acc with
  | nil => simpa using h
  | cons p rest ih =>
      simp only [List.foldl_cons]
      apply ih
      unfold buildOrderStep
      cases lessonsMapLookup lessons p.1 with
      | none => simpa using h
      | some lesson =>
          by_cases hid : p.1 = "" ∨ p.1 = "0"
          · simpa [hid] using h
          · simp [hid, List.map_append, List.sum_append, h]

/-- Claim C7 counterexample: with a single line priced below one cent,
the Checkout payload total is the rounded 0 while the recomputed sum of
price times quantity is 1/1000: the two differ. -/
theorem C7_subcent_rounding :
    (orderPayload csSubCent).total = 0 ∧
    cartTotalRaw csSubCent.cart csSubCent.lessons = 1 / 1000 ∧
    ¬ (orderPayload csSubCent).total
        = cartTotalRaw csSubCent.cart csSubCent.lessons := by
  have h2 : cartTotalRaw csSubCent.cart csSubCent.lessons = 1 / 1000 := by
    simp [cartTotalRaw, detailedCart, csSubCent, lessonSubCent, rawLessonKey,
      List.find?]
  have h1 : (orderPayload csSubCent).total = 0 := by
    show round2 (cartTotalRaw csSubCent.cart csSubCent.lessons) = 0
    rw [h2, round2]
    norm_num
  refine ⟨h1, h2, ?_⟩
  rw [h1, h2]
  norm_num

/-- Claim C7, amended: the Checkout payload total is the recomputed sum
of price times quantity over the derived cart lines rounded to two
decimals by toFixed, hence equal to the exact sum exactly when that sum
is a whole number of cents; the placeOrder payload total is the exact
recomputed sum of price times quantity over its lines; both are derived
from the current cart and catalog at submission time. -/
theorem C7_total_recomputed :
    (∀ s : CheckoutState,
        (orderPayload s).total = round2 (cartTotalRaw s.cart s.lessons)) ∧
    (∀ (cart : Cart) (lessons : List Lesson),
        cartTotalRaw cart lessons =
          ((detailedCart cart lessons).map
            (fun it => it.price * (it.quantity : ℚ))).sum) ∧
    (∀ (s : CheckoutState) (n : ℤ),
        cartTotalRaw s.cart s.lessons = (n : ℚ) / 100 →
        (orderPayload s).total = cartTotalRaw s.cart s.lessons) ∧
    (∀ (cart : Cart) (lessons : List Lesson),
        (buildOrderLines cart lessons).2 =
          (((buildOrderLines cart lessons).1).map
            (fun ln => ln.price * (ln.quantity : ℚ))).sum) := by
  refine ⟨fun s => rfl, ?_, ?_, ?_⟩
  · intro cart lessons
    rw [cartTotalRaw, foldl_add_subtotal, zero_add]
    exact congrArg List.sum
      (List.map_congr_left (fun it hit => detailedCart_subtotal cart lessons it hit))
  · intro s n h
    show round2 (cartTotalRaw s.cart s.lessons) = _
    rw [h, round2_cents]
  · intro cart lessons
    exact buildOrder_foldl_inv cart lessons ([], 0) (by simp)

/-- Claim C7 witness: the two-line cart totals 20, a whole number of
cents, so the Checkout payload total equals the recomputed sum; the
placeOrder total likewise equals its summed lines. -/
theorem C7_total_recomputed_witness :
    (orderPayload csTwo).total = round2 (cartTotalRaw csTwo.cart csTwo.lessons) ∧
    (orderPayload csTwo).total = cartTotalRaw csTwo.cart csTwo.lessons ∧
    (buildOrderLines csTwo.cart csTwo.lessons).2 =
      (((buildOrderLines csTwo.cart csTwo.lessons).1).map
        (fun ln => ln.price * (ln.quantity : ℚ))).sum :=
  ⟨C7_total_recomputed.1 csTwo,
   C7_total_recomputed.2.2.1 csTwo 2000 (by
      simp [cartTotalRaw, detailedCart, csTwo, lessonL1, lessonL2, rawLessonKey,
        List.find?]
      norm_num),
   C7_total_recomputed.2.2.2 csTwo.cart csTwo.lessons⟩

/-- A successful addToCart call: one space fewer on the clicked lesson,
one more unit of its id in the cart, a success notification. -/
theorem addToCart_success_eq (s : ListState) (i : Nat) (l : Lesson) (lessonId : String)
    (hget : s.lessons[i]? = some l) (hid : getLessonId l = some lessonId)
    (hz : lessonId ≠ "0") (hsp : ¬ l.space ≤ 0) :
    (addToCart s i).1 = { s with
      lessons := s.lessons.set i { l with space := l.space - 1 },
      cart := Cart.setq s.cart lessonId (Cart.getq s.cart lessonId + 1),
      notification := some (l.topic ++ " added to cart!", true) } := by
  simp [addToCart, hget, hid, hz, hsp]

/-- An add step on the focal lesson preserves the reconciliation
invariant. -/
theorem C1Inv_add (lessonId : String) (S : Int) (s : ListState)
    (h : C1Inv lessonId S s) : C1Inv lessonId S (lessonOpStep lessonId s .add) := by
  obtain ⟨l, hls, hid1, hid2, hsp, hsum⟩ := h
  have hget : s.lessons[0]? = some l := by rw [hls]; rfl
  show C1Inv lessonId S (addToCart s 0).1
  by_cases hz : lessonId = "0"
  · have hres : (addToCart s 0).1 = { s with notification := some ("Failed to add " ++ l.topic ++ ": Invalid ID.", false) } := by
      simp [addToCart, hget, hid1, hz]
    rw [hres]
    exact ⟨l, hls, hid1, hid2, hsp, hsum⟩
  · by_cases hsp0 : l.space ≤ 0
    · have hres : (addToCart s 0).1 = s := by
        simp [addToCart, hget, hid1, hz, hsp0]
      rw [hres]
      exact ⟨l, hls, hid1, hid2, hsp, hsum⟩
    · rw [addToCart_success_eq s 0 l lessonId hget hid1 hz hsp0]
      refine ⟨{ l with space := l.space - 1 }, ?_, hid1, hid2,
        by show 0 ≤ l.space - 1; omega, ?_⟩
      · rw [hls]
        rfl
      · show (Cart.getq (Cart.setq s.cart lessonId (Cart.getq s.cart lessonId + 1))
            lessonId : Int) + (l.space - 1) = S
        rw [Cart.getq_setq_self]
        push_cast
        omega

/-- A remove step on the focal lesson preserves the reconciliation
invariant whenever the requested count does not exceed the held
quantity (a remove on an id absent from the cart is a no-op). -/
theorem C1Inv_remove (lessonId : String) (S : Int) (s : ListState) (n : Nat)
    (hn : Cart.getq s.cart lessonId = 0 ∨ n ≤ Cart.getq s.cart lessonId)
    (h : C1Inv lessonId S s) :
    C1Inv lessonId S (lessonOpStep lessonId s (.remove n)) := by
  obtain ⟨l, hls, hid1, hid2, hsp, hsum⟩ := h
  by_cases hq : 0 < Cart.getq s.cart lessonId
  · have hnle : n ≤ Cart.getq s.cart lessonId := by
      rcases hn with h0 | h1
      · omega
      · exact h1
    have hbump : bumpSpaceFirst s.lessons lessonId (n : Int)
        = [{ l with space := l.space + (n : Int) }] := by
      rw [hls]
      simp [bumpSpaceFirst, hid2]
    by_cases hz : Cart.getq s.cart lessonId - n = 0
    · refine ⟨{ l with space := l.space + (n : Int) }, ?_, hid1, hid2,
        by show 0 ≤ l.space + (n : Int); omega, ?_⟩
      · simp [lessonOpStep, handleRemoveItem, hq, hz, hbump]
      · show (Cart.getq (lessonOpStep lessonId s (.remove n)).cart lessonId : Int)
            + (l.space + (n : Int)) = S
        simp only [lessonOpStep, handleRemoveItem, hq, if_true, hz, if_pos rfl]
        rw [Cart.getq_del_self]
        omega
    · refine ⟨{ l with space := l.space + (n : Int) }, ?_, hid1, hid2,
        by show 0 ≤ l.space + (n : Int); omega, ?_⟩
      · simp [lessonOpStep, handleRemoveItem, hq, hz, hbump]
      · show (Cart.getq (lessonOpStep lessonId s (.remove n)).cart lessonId : Int)
            + (l.space + (n : Int)) = S
        simp only [lessonOpStep, handleRemoveItem, hq, if_true, hz, if_false]
        rw [Cart.getq_setq_self]
        omega
  · refine ⟨l, ?_, hid1, hid2, hsp, ?_⟩ <;>
      simp [lessonOpStep, handleRemoveItem, hq, hls, hsum]

/-- Running a sequence of bounded operations preserves the
reconciliation invariant. -/
theorem C1Inv_run (lessonId : String) (S : Int) (ops : List LessonOp) (s : ListState)
    (hops : removesValidB lessonId s ops = true)
    (h : C1Inv lessonId S s) : C1Inv lessonId S (runLessonOps lessonId s ops) := by
  induction ops generalizing s with
  | nil => simpa [runLessonOps] using h
  | cons op rest ih =>
      have hrun : runLessonOps lessonId s (op :: rest)
          = runLessonOps lessonId (lessonOpStep lessonId s op) rest := rfl
      rw [hrun]
      cases op with
      | add =>
          have hops2 : (true
              && removesValidB lessonId (lessonOpStep lessonId s LessonOp.add) rest)
              = true := hops
          rw [Bool.and_eq_true] at hops2
          exact ih _ hops2.2 (C1Inv_add lessonId S s h)
      | remove n =>
          have hops2 : ((decide (Cart.getq s.cart lessonId = 0)
              || decide (n ≤ Cart.getq s.cart lessonId))
              && removesValidB lessonId (lessonOpStep lessonId s (LessonOp.remove n)) rest)
              = true := hops
          rw [Bool.and_eq_true] at hops2
          have hor := hops2.1
          rw [Bool.or_eq_true, decide_eq_true_eq, decide_eq_true_eq] at hor
          exact ih _ hops2.2 (C1Inv_remove lessonId S s n hor h)

/-- Claim C1 counterexample: starting from one server-reported space,
adding once and then removing with count 2 leaves cart quantity 0 but
cached space 2, so quantity plus space is 2, not the baseline 1. -/
theorem C1_unbounded_remove_breaks_invariant :
    headSpace (initListState [lessonOneSpace]) = 1 ∧
    (initListState [lessonOneSpace]).cart = [] ∧
    (Cart.getq (runLessonOps "L1" (initListState [lessonOneSpace])
        [.add, .remove 2]).cart "L1" : Int)
      + headSpace (runLessonOps "L1" (initListState [lessonOneSpace])
        [.add, .remove 2]) = 2 ∧
    ¬ ((Cart.getq (runLessonOps "L1" (initListState [lessonOneSpace])
        [.add, .remove 2]).cart "L1" : Int)
      + headSpace (runLessonOps "L1" (initListState [lessonOneSpace])
        [.add, .remove 2]) = 1) := by
  refine ⟨rfl, rfl, by decide, by decide⟩

/-- Claim C1, amended: for a lesson with server-reported space S,
starting from an empty cart, cart quantity plus cached space equals S
after every sequence of add and remove operations on that lesson in
which each remove requests at most the quantity then held (as the
default count 1 always does); an over-large remove breaks the equality
by adding its full count to the cached space. -/
theorem C1_invariant_bounded_removes (l : Lesson) (lessonId : String) (S : Int)
    (ops : List LessonOp)
    (hid1 : getLessonId l = some lessonId) (hid2 : rawLessonKey l = some lessonId)
    (hS : l.space = S) (hpos : 0 ≤ l.space)
    (hops : removesValidB lessonId (initListState [l]) ops = true) :
    ∃ l2 : Lesson,
      (runLessonOps lessonId (initListState [l]) ops).lessons = [l2] ∧
      (Cart.getq (runLessonOps lessonId (initListState [l]) ops).cart lessonId : Int)
        + l2.space = S := by
  have h0 : C1Inv lessonId S (initListState [l]) := by
    refine ⟨l, rfl, hid1, hid2, hpos, ?_⟩
    show (0 : Int) + l.space = S
    rw [zero_add, hS]
  obtain ⟨l2, h1, _, _, _, h5⟩ := C1Inv_run lessonId S ops (initListState [l]) hops h0
  exact ⟨l2, h1, h5⟩

/-- Claim C1 witness: two adds and a default remove on a lesson with
five spaces keep quantity plus space at 5. -/
theorem C1_invariant_bounded_removes_witness :
    ∃ l2 : Lesson,
      (runLessonOps "L1" (initListState [lessonL1]) [.add, .add, .remove 1]).lessons = [l2] ∧
      (Cart.getq (runLessonOps "L1" (initListState [lessonL1])
          [.add, .add, .remove 1]).cart "L1" : Int) + l2.space = 5 :=
  C1_invariant_bounded_removes lessonL1 "L1" 5 [.add, .add, .remove 1]
    (by decide) (by decide) rfl (by decide) (by decide)
